import Mathlib

set_option maxHeartbeats 1000000

namespace BridgeAuth

/-! Shallow embedding of the authentication core of the bridge-console
repository: `pkg/auth/auth.go` and `pkg/auth/auth_openshift.go`.

URL handling: the package relies on Go `net/url` values.  We embed the
fields of `url.URL` used by the package (`Scheme`, `Host`, `Path`,
`RawQuery`) together with the parts of `url.Parse`, `URL.Hostname`,
`URL.Port` and `URL.String` the package exercises, restricted to URLs
without userinfo, fragments, opaque forms or percent-escapes — the only
forms that occur in this package (origins, referers, and configured
redirect paths). -/

instance {ε α : Type} [DecidableEq ε] [DecidableEq α] : DecidableEq (Except ε α) :=
  fun a b =>
    match a, b with
    | .ok x, .ok y =>
      if h : x = y then isTrue (by rw [h]) else isFalse (by intro hc; cases hc; exact h rfl)
    | .error x, .error y =>
      if h : x = y then isTrue (by rw [h]) else isFalse (by intro hc; cases hc; exact h rfl)
    | .ok _, .error _ => isFalse (by intro hc; cases hc)
    | .error _, .ok _ => isFalse (by intro hc; cases hc)

structure GoURL where
  Scheme : String := ""
  Host : String := ""
  Path : String := ""
  RawQuery : String := ""
deriving DecidableEq, Repr

/-- Go `net/url.validOptionalPort` on the characters after the colon:
every character must be an ASCII digit (an empty list is valid). -/
def validOptionalPortDigits (port : List Char) : Bool :=
  port.all fun b => decide ('0' ≤ b) && decide (b ≤ '9')

/-- Split a character list around its last colon, returning the parts
before and after it, or `none` when there is no colon. -/
def splitAtLastColon : List Char → Option (List Char × List Char)
  | [] => none
  | c :: rest =>
    match splitAtLastColon rest with
    | some (b, a) => some (c :: b, a)
    | none => if c = ':' then some ([], rest) else none

/-- Go `net/url.splitHostPort` strips surrounding brackets from an IPv6
host after removing the port. -/
def stripBrackets (host : List Char) : List Char :=
  if host.head? == some '[' && host.getLast? == some ']' then
    (host.drop 1).dropLast
  else host

/-- Go `net/url.splitHostPort`: separate host and port; an invalid port
leaves the whole input as the host. -/
def splitHostPort (hostPort : String) : String × String :=
  let hp := hostPort.toList
  let hostAndPort :=
    match splitAtLastColon hp with
    | some (b, a) => if validOptionalPortDigits a then (b, a) else (hp, ([] : List Char))
    | none => (hp, ([] : List Char))
  (String.mk (stripBrackets hostAndPort.1), String.mk hostAndPort.2)

/-- Go `url.URL.Hostname`. -/
def GoURL.Hostname (u : GoURL) : String := (splitHostPort u.Host).1

/-- Go `url.URL.Port`. -/
def GoURL.Port (u : GoURL) : String := (splitHostPort u.Host).2

/-- Split a character list at the first occurrence of the literal
scheme separator `://`, or `none` when it does not occur. -/
def splitAtSchemeSep : List Char → Option (List Char × List Char)
  | [] => none
  | ':' :: '/' :: '/' :: rest => some ([], rest)
  | c :: rest =>
    match splitAtSchemeSep rest with
    | some (b, a) => some (c :: b, a)
    | none => none

def isSchemeChar (c : Char) : Bool :=
  c.isAlpha || c.isDigit || c == '+' || c == '-' || c == '.'

/-- Go `net/url.getscheme` validity: a scheme starts with a letter and
continues with letters, digits, `+`, `-` or `.`. -/
def validScheme (s : String) : Bool :=
  match s.toList with
  | [] => false
  | c :: rest => c.isAlpha && rest.all isSchemeChar

/-- Split a character list at the first occurrence of `sep`; the second
component is `none` when `sep` does not occur. -/
def splitAtFirstChar (sep : Char) : List Char → List Char × Option (List Char)
  | [] => ([], none)
  | c :: rest =>
    if c = sep then ([], some rest)
    else
      let p := splitAtFirstChar sep rest
      (c :: p.1, p.2)

/-- Go `url.Parse`, restricted to the URL forms the auth package sees:
either `scheme://host[/path][?query]` or a relative reference
`path[?query]` (no userinfo, fragment, opaque part or percent-escape).
The scheme is lower-cased as in Go. -/
def parseURL (s : String) : Except String GoURL :=
  let q := splitAtFirstChar '?' s.toList
  let rawQuery := String.mk (q.2.getD [])
  match splitAtSchemeSep q.1 with
  | some (schemeChars, rest) =>
    let scheme := String.mk schemeChars
    if scheme = "" then .error ("parse " ++ s ++ ": missing protocol scheme")
    else if validScheme scheme = false then
      .error ("parse " ++ s ++ ": invalid URI for request")
    else
      let hp := splitAtFirstChar '/' rest
      let path := match hp.2 with
        | none => ""
        | some p => String.mk ('/' :: p)
      .ok { Scheme := String.mk (schemeChars.map Char.toLower),
            Host := String.mk hp.1, Path := path, RawQuery := rawQuery }
  | none =>
    .ok { Scheme := "", Host := "", Path := String.mk q.1, RawQuery := rawQuery }

/-- Go `url.URL.String` for the URL shapes above. -/
def urlToString (u : GoURL) : String :=
  (if u.Scheme ≠ "" then u.Scheme ++ "://" ++ u.Host else "") ++ u.Path ++
    (if u.RawQuery ≠ "" then "?" ++ u.RawQuery else "")

/-! HTTP client cache (`newHTTPClient`, `httpClientCache`,
`httpClientCacheSystemRoots` in auth.go).  The filesystem is a map from
path to optional byte content; whether `x509.CertPool.AppendCertsFromPEM`
finds a certificate in given bytes is a parameter `appendOK`.  Client
identity (Go pointer identity) is tracked by an allocation counter
`nextId` carried in the cache state. -/

structure HTTPClient where
  isDefault : Bool
  includeSystemRoots : Bool
  caKey : String
  id : Nat
deriving DecidableEq, Repr

/-- Go `http.DefaultClient`, returned when the CA path is empty. -/
def defaultHTTPClient : HTTPClient :=
  { isDefault := true, includeSystemRoots := false, caKey := "", id := 0 }

structure ClientCacheState where
  cache : List (String × HTTPClient)
  cacheSystemRoots : List (String × HTTPClient)
  nextId : Nat
deriving DecidableEq, Repr

/-- `sync.Map.Load`. -/
def cacheLoad (m : List (String × HTTPClient)) (k : String) : Option HTTPClient :=
  (m.find? fun p => p.1 == k).map (·.2)

/-- `sync.Map.Store`: a later entry for the same key shadows the older
one for `cacheLoad`, so prepending models an overwrite. -/
def cacheStore (m : List (String × HTTPClient)) (k : String) (v : HTTPClient) :
    List (String × HTTPClient) :=
  (k, v) :: m

/-- `newHTTPClient(issuerCA, includeSystemRoots)` from auth.go: empty CA
path yields the default client; otherwise read the file (error if
unreadable), use its raw bytes as the cache key, return a cache hit if
present, else require the PEM to contain CA data (error otherwise),
build a fresh client and store it in the mode's map. -/
def newHTTPClient (fs : String → Option String) (appendOK : String → Bool)
    (issuerCA : String) (includeSystemRoots : Bool) (st : ClientCacheState) :
    Except String HTTPClient × ClientCacheState :=
  if issuerCA = "" then (.ok defaultHTTPClient, st)
  else
    match fs issuerCA with
    | none => (.error ("load issuer CA file " ++ issuerCA), st)
    | some data =>
      let caKey := data
      if includeSystemRoots then
        match cacheLoad st.cacheSystemRoots caKey with
        | some c => (.ok c, st)
        | none =>
          if appendOK data then
            let c : HTTPClient :=
              { isDefault := false, includeSystemRoots := true, caKey := caKey,
                id := st.nextId }
            (.ok c, { st with cacheSystemRoots := cacheStore st.cacheSystemRoots caKey c,
                              nextId := st.nextId + 1 })
          else (.error ("file " ++ issuerCA ++ " contained no CA data"), st)
      else
        match cacheLoad st.cache caKey with
        | some c => (.ok c, st)
        | none =>
          if appendOK data then
            let c : HTTPClient :=
              { isDefault := false, includeSystemRoots := false, caKey := caKey,
                id := st.nextId }
            (.ok c, { st with cache := cacheStore st.cache caKey c,
                              nextId := st.nextId + 1 })
          else (.error ("file " ++ issuerCA ++ " contained no CA data"), st)

/-! Authenticator (auth.go).  The closure fields `authFunc`, `clientFunc`
and `userFunc` are modelled separately as explicit functions of their
inputs; the struct keeps the data fields, plus the client captured by the
`clientFunc` closure at construction. -/

structure Authenticator where
  errorURL : String := "/"
  successURL : String := "/"
  cookiePath : String := "/"
  refererURL : GoURL := {}
  secureCookies : Bool := false
  cookieDomain : String := ""
  fallbackClient : HTTPClient := defaultHTTPClient
deriving DecidableEq, Repr

/-! Source-origin verification (`getSourceOrigin`, `VerifySourceOrigin`
in auth.go).  A request carries its `Origin` header and `Referer` header
as Go `Header.Get` sees them: the empty string when absent. -/

structure OriginRequest where
  originHeader : String := ""
  refererHeader : String := ""
deriving DecidableEq, Repr

/-- Go `strings.HasPrefix s p`: the characters of `p` start the
characters of `s`. -/
def goStartsWith (s p : String) : Bool :=
  p.toList.isPrefixOf s.toList

/-- `getSourceOrigin`: prefer the `Origin` header, fall back to
`Referer`. -/
def getSourceOrigin (r : OriginRequest) : String :=
  if r.originHeader.length ≠ 0 then r.originHeader else r.refererHeader

/-- `VerifySourceOrigin`: `none` models a nil Go error. -/
def VerifySourceOrigin (a : Authenticator) (r : OriginRequest) : Option String :=
  let source := getSourceOrigin r
  if source.length = 0 then some "no Origin or Referer header in request"
  else
    match parseURL source with
    | .error e => some e
    | .ok u =>
      let isValid := a.refererURL.Hostname == u.Hostname &&
        a.refererURL.Port == u.Port &&
        a.refererURL.Scheme == u.Scheme &&
        (u.Path == "" || goStartsWith u.Path a.refererURL.Path)
      if isValid then none
      else some ("invalid Origin or Referer: " ++ source)

/-! Constants from auth.go. -/

def CSRFCookieName : String := "csrf-token"

def CSRFHeader : String := "X-CSRFToken"

def stateCookieName : String := "login-state"

def errorOAuth : String := "oauth_error"

def errorLoginState : String := "login_state_error"

def errorCookie : String := "cookie_error"

def errorInternal : String := "internal_error"

def errorMissingCode : String := "missing_code"

def errorMissingState : String := "missing_state"

def errorInvalidCode : String := "invalid_code"

def errorInvalidState : String := "invalid_state"

/-! Cookies.  `SameSite` follows Go `http.SameSite`; `defaultMode` is
the unset zero value.  `MaxAge` is Go's `int` field. -/

inductive SameSiteMode
  | defaultMode
  | laxMode
  | strictMode
  | noneMode
deriving DecidableEq, Repr

structure Cookie where
  Name : String := ""
  Value : String := ""
  MaxAge : Int := 0
  HttpOnly : Bool := false
  Path : String := ""
  Secure : Bool := false
  SameSite : SameSiteMode := .defaultMode
  Domain : String := ""
deriving DecidableEq, Repr

/-- Modelled from the spec: the `loginState` struct is not under src/
(it lives in the OIDC half of the package); the spec says LoginState
holds the raw bearer token and any derived identity claims (email/name
when available from an ID token).  Unset fields are Go zero values. -/
structure LoginState where
  rawToken : String := ""
  name : String := ""
  email : String := ""
deriving DecidableEq, Repr

/-- Modelled from the spec: `GetCookieName` is not under src/; the spec
says the session-cookie name is derived deterministically from the
cluster name — the local cluster uses a fixed base name and other
clusters append a suffix. -/
def GetCookieName (cluster : String) : String :=
  if cluster = "" then "openshift-session-token"
  else "openshift-session-token-" ++ cluster

/-! `CallbackFunc` (auth.go).  A callback request carries its query
parameters and cookies; `url.Values.Get` returns the first value or the
empty string, `Request.Cookie` returns the first cookie of the name or
fails.  The token exchange (`oauthConfig.Exchange`) and the active login
method's `login` are the two external calls the handler makes; they are
passed as explicit functions.  The handler's outcome is either a
redirect (a `Location` value and a status code) or the invocation of the
caller-supplied continuation with the login state and success URL. -/

structure OAuth2Token where
  AccessToken : String := ""
  Expiry : Option Int := none
deriving DecidableEq, Repr

structure CallbackRequest where
  query : List (String × String) := []
  cookies : List (String × String) := []
deriving DecidableEq, Repr

inductive CallbackResult
  | redirect (location : String) (status : Nat)
  | success (ls : LoginState) (successURL : String)
deriving DecidableEq, Repr

/-- `url.Values.Get`: first value for the key, or `""`. -/
def queryGet (q : List (String × String)) (k : String) : String :=
  match q.find? fun p => p.1 == k with
  | some p => p.2
  | none => ""

/-- `http.Request.Cookie`: the first cookie with the name, if any. -/
def cookieGet (cs : List (String × String)) (name : String) : Option String :=
  (cs.find? fun p => p.1 == name).map (·.2)

/-- `redirectAuthError`: parse the configured error URL (falling back to
treating it as a bare path), attach `error=<category>&error_type=auth`
as the query (Go `url.Values.Encode` sorts the two keys this way and
escapes nothing in these values), and answer 303 See Other with that
`Location`. -/
def redirectAuthError (a : Authenticator) (authErr : String) : CallbackResult :=
  let u : GoURL :=
    match parseURL a.errorURL with
    | .error _ => { Path := a.errorURL }
    | .ok up => up
  let u := { u with RawQuery := "error=" ++ authErr ++ "&error_type=auth" }
  .redirect (urlToString u) 303

/-- The handler returned by `CallbackFunc`: missing state cookie →
`missing_state`; neither `error` nor `code` present → plain redirect to
the error URL; empty `code` (with `error` present) → `missing_code`;
`state` query differing from the state cookie → `invalid_state`; failed
exchange → `invalid_code`; failed login → `internal_error`; otherwise
the continuation is invoked with the login state and success URL. -/
def CallbackFunc (a : Authenticator) (exchange : String → Except String OAuth2Token)
    (lmLogin : OAuth2Token → Except String (LoginState × Cookie))
    (r : CallbackRequest) : CallbackResult :=
  let qErr := queryGet r.query "error"
  let code := queryGet r.query "code"
  let urlState := queryGet r.query "state"
  match cookieGet r.cookies stateCookieName with
  | none => redirectAuthError a errorMissingState
  | some cookieStateVal =>
    if qErr == "" && code == "" then .redirect a.errorURL 303
    else if code == "" then redirectAuthError a errorMissingCode
    else if urlState != cookieStateVal then redirectAuthError a errorInvalidState
    else
      match exchange code with
      | .error _ => redirectAuthError a errorInvalidCode
      | .ok token =>
        match lmLogin token with
        | .error _ => redirectAuthError a errorInternal
        | .ok lsc => .success lsc.1 a.successURL

/-! OpenShift login method (auth_openshift.go). -/

structure SpecialAuthURLs where
  RequestToken : String := ""
  KubeAdminLogout : String := ""
deriving DecidableEq, Repr

structure OpenShiftAuth where
  cookiePath : String := ""
  secureCookies : Bool := false
  specialURLs : SpecialAuthURLs := {}
  clusterName : String := ""
  cookieDomain : String := ""
deriving DecidableEq, Repr

structure OpenShiftConfig where
  issuerURL : String := ""
  cookiePath : String := ""
  secureCookies : Bool := false
  clusterName : String := ""
  cookieDomain : String := ""
deriving DecidableEq, Repr

/-- Modelled from the spec: `proxy.SingleJoiningSlash` is not under
src/; the spec says the convenience URLs are derived "by joining
`/request` and `/logout` onto the token and issuer URLs" and gives the
example `https://oauth.example/token` ++ `/request` =
`https://oauth.example/token/request`: the two parts are joined with
exactly one slash between them. -/
def SingleJoiningSlash (a b : String) : String :=
  let aslash := a.toList.getLast? == some '/'
  let bslash := b.toList.head? == some '/'
  if aslash && bslash then a ++ String.mk (b.toList.drop 1)
  else if !aslash && !bslash then a ++ "/" ++ b
  else a ++ b

/-- Go `strings.TrimSuffix s "/"`: drop one trailing slash if present. -/
def trimTrailingSlash (s : String) : String :=
  if s.toList.getLast? == some '/' then String.mk s.toList.dropLast else s

/-- The well-known metadata URL derived in `newOpenShiftAuth`. -/
def wellKnownURL (issuerURL : String) : String :=
  trimTrailingSlash issuerURL ++ "/.well-known/oauth-authorization-server"

/-- `validateAbsURL` from auth_openshift.go: the value must parse and
the result must be non-degenerate with a non-empty scheme and host. -/
def validateAbsURL (value : String) : Except String Unit :=
  match parseURL value with
  | .error e => .error e
  | .ok ur =>
    if urlToString ur == "" || ur.Scheme == "" || ur.Host == "" then
      .error ("url is not absolute: " ++ value)
    else .ok ()

/-- The decoded `.well-known/oauth-authorization-server` document. -/
structure OAuthMetadata where
  issuer : String := ""
  auth : String := ""
  token : String := ""
deriving DecidableEq, Repr

/-- The discovery response: its HTTP status code and the outcome of
JSON-decoding its body into `OAuthMetadata`. -/
structure WellKnownResponse where
  statusCode : Nat := 0
  body : Except String OAuthMetadata := .ok {}
deriving Repr

structure OAuth2Endpoint where
  AuthURL : String := ""
  TokenURL : String := ""
deriving DecidableEq, Repr

/-- `newOpenShiftAuth`: require a 2xx well-known response, a decodable
body, three absolute URLs, and a reachable issuer (the HEAD probe is the
Boolean `issuerReachable`); on success return the endpoint pair and the
login method whose special URLs join `/request` onto the token URL and
`/logout` onto the issuer URL. -/
def newOpenShiftAuth (c : OpenShiftConfig) (resp : WellKnownResponse)
    (issuerReachable : Bool) : Except String (OAuth2Endpoint × OpenShiftAuth) :=
  if resp.statusCode / 100 ≠ 2 then
    .error ("discovery through endpoint " ++ wellKnownURL c.issuerURL ++ " failed")
  else
    match resp.body with
    | .error e =>
      .error ("discovery through endpoint " ++ wellKnownURL c.issuerURL ++
        " failed to decode body: " ++ e)
    | .ok metadata =>
      match validateAbsURL metadata.issuer with
      | .error e => .error e
      | .ok _ =>
        match validateAbsURL metadata.auth with
        | .error e => .error e
        | .ok _ =>
          match validateAbsURL metadata.token with
          | .error e => .error e
          | .ok _ =>
            if !issuerReachable then
              .error ("request to OAuth issuer endpoint " ++ metadata.token ++ " failed")
            else
              let requestTokenURL := SingleJoiningSlash metadata.token "/request"
              let kubeAdminLogoutURL := SingleJoiningSlash metadata.issuer "/logout"
              .ok ({ AuthURL := metadata.auth, TokenURL := metadata.token },
                { cookiePath := c.cookiePath, secureCookies := c.secureCookies,
                  specialURLs := { RequestToken := requestTokenURL,
                                   KubeAdminLogout := kubeAdminLogoutURL },
                  clusterName := c.clusterName, cookieDomain := c.cookieDomain })

/-- `openShiftAuth.login`: an empty access token is an error (and no
cookie is written, which the return type makes structural); otherwise
the session cookie and the login state are produced.  Times are in whole
seconds: `now` is the current time and `Expiry` an absolute expiry, so
`e - now` is Go's `token.Expiry.Sub(time.Now()).Seconds()` truncated to
`int`, and the 24h default is 86400. -/
def OpenShiftAuth.login (o : OpenShiftAuth) (now : Int) (token : OAuth2Token) :
    Except String (LoginState × Cookie) :=
  if token.AccessToken = "" then
    .error "token response did not contain an access token"
  else
    let ls : LoginState := { rawToken := token.AccessToken }
    let expiresIn : Int :=
      match token.Expiry with
      | none => 86400
      | some e => e - now
    let cookie : Cookie :=
      { Name := GetCookieName o.clusterName, Value := ls.rawToken,
        MaxAge := expiresIn, HttpOnly := true, Path := o.cookiePath,
        Secure := o.secureCookies, SameSite := .laxMode,
        Domain := if o.cookieDomain ≠ "" then o.cookieDomain else "" }
    .ok (ls, cookie)

/-- `openShiftAuth.logout`: overwrite the session cookie with an empty
value and `MaxAge` 0, then answer 204 No Content. -/
def OpenShiftAuth.logout (o : OpenShiftAuth) : Cookie × Nat :=
  let cookie : Cookie :=
    { Name := GetCookieName o.clusterName, Value := "", MaxAge := 0,
      HttpOnly := true, Path := o.cookiePath, Secure := o.secureCookies,
      Domain := if o.cookieDomain ≠ "" then o.cookieDomain else "" }
  (cookie, 204)

/-- A browser cookie jar applying a `Set-Cookie`: a negative `Max-Age`
deletes the cookie, otherwise the value is stored under the name
(`MaxAge = 0` in Go means the attribute is omitted, so the cookie is
kept with the new value). -/
def applySetCookie (jar : List (String × String)) (c : Cookie) :
    List (String × String) :=
  if c.MaxAge < 0 then jar.filter fun p => p.1 != c.Name
  else if jar.any fun p => p.1 == c.Name then
    jar.map fun p => if p.1 == c.Name then (p.1, c.Value) else p
  else jar ++ [(c.Name, c.Value)]

/-- A request as `getOpenShiftUser` sees it.  Modelled from the spec:
`serverutils.GetCluster` is not under src/; the spec says it resolves
the current cluster name from the request, so the request carries it as
a field. -/
structure UserRequest where
  cluster : String := ""
  cookies : List (String × String) := []
deriving DecidableEq, Repr

structure User where
  ID : String := ""
  Username : String := ""
  Token : String := ""
deriving DecidableEq, Repr

/-- `getOpenShiftUser`: read the per-cluster session cookie; a missing
cookie or an empty value is an authentication failure. -/
def getOpenShiftUser (r : UserRequest) : Except String User :=
  let cookieName := GetCookieName r.cluster
  match cookieGet r.cookies cookieName with
  | none => .error "http: named cookie not present"
  | some v =>
    if v = "" then .error ("unauthenticated, no value for cookie " ++ cookieName)
    else .ok { Token := v }

/-! Authenticator construction (auth.go): `Config`,
`newUnstartedAuthenticator` and the retry loop of `NewAuthenticator`. -/

inductive AuthSource
  | tectonic
  | openshift
deriving DecidableEq, Repr

structure Config where
  AuthSource : AuthSource := .tectonic
  IssuerURL : String := ""
  IssuerCA : String := ""
  RedirectURL : String := ""
  ClientID : String := ""
  ClientSecret : String := ""
  Scope : List String := []
  K8sCA : String := ""
  SuccessURL : String := ""
  ErrorURL : String := ""
  RefererPath : String := ""
  CookiePath : String := ""
  SecureCookies : Bool := false
  ClusterName : String := ""
  CookieDomain : String := ""
deriving DecidableEq, Repr

/-- `newUnstartedAuthenticator(c *Config)`.  The Go function receives a
pointer to the `Config`, so the returned triple carries the `Config` as
the caller sees it afterwards: the source assigns `c.CookiePath = "/"`
when the field is empty, after the initial HTTP client succeeded.
`clientFunc` is modelled by the captured fallback client. -/
def newUnstartedAuthenticator (fs : String → Option String)
    (appendOK : String → Bool) (st : ClientCacheState) (c : Config) :
    Except String Authenticator × Config × ClientCacheState :=
  match newHTTPClient fs appendOK c.IssuerCA true st with
  | (.error e, st') => (.error e, c, st')
  | (.ok fallbackClient, st') =>
    let errURL := if c.ErrorURL ≠ "" then c.ErrorURL else "/"
    let sucURL := if c.SuccessURL ≠ "" then c.SuccessURL else "/"
    let c := if c.CookiePath = "" then { c with CookiePath := "/" } else c
    match parseURL c.RefererPath with
    | .error e => (.error e, c, st')
    | .ok refUrl =>
      (.ok { errorURL := errURL, successURL := sucURL,
             cookiePath := c.CookiePath, refererURL := refUrl,
             secureCookies := c.SecureCookies, cookieDomain := c.CookieDomain,
             fallbackClient := fallbackClient }, c, st')

/-! The discovery retry loop of `NewAuthenticator`: `steps` starts at 0,
each failed attempt increments it and the loop gives up when
`steps > maxSteps` with `maxSteps = 30`, sleeping `backoff = 10s`
before every retry.  `attempts i` is the outcome of the i-th call of
`authSourceFunc` (0-based); the result records the index of the final
attempt, which also counts the sleeps taken (one before each retry). -/

inductive RetryOutcome (α : Type)
  | ok (finalAttempt : Nat) (v : α)
  | err (finalAttempt : Nat) (e : String)
deriving DecidableEq, Repr

/-- The loop body, with `fuel` the number of failures still allowed to
retry (`maxSteps - steps` at entry). -/
def authRetryGo {α : Type} (attempts : Nat → Except String α) :
    Nat → Nat → RetryOutcome α
  | i, fuel =>
    match attempts i with
    | .ok v => .ok i v
    | .error e =>
      match fuel with
      | 0 => .err i e
      | fuel' + 1 => authRetryGo attempts (i + 1) fuel'

/-- `NewAuthenticator`'s retry schedule: first attempt with 30 retries
allowed (`maxSteps = 30`). -/
def newAuthenticatorRetry {α : Type} (attempts : Nat → Except String α) :
    RetryOutcome α :=
  authRetryGo attempts 0 30

/-- The fixed backoff, in seconds, slept before each retry. -/
def retryBackoffSeconds : Nat := 10

/-! `authFunc` (closure built in `NewAuthenticator`): each call rebuilds
a fresh `oauth2.Config` value from the `Config` fields and the fallback
endpoint, re-runs discovery, and either carries the newly discovered
endpoint and login method or, when discovery fails, keeps the fallback
endpoint and login method.  The login method type is abstract. -/

structure OAuth2Config where
  ClientID : String := ""
  ClientSecret : String := ""
  RedirectURL : String := ""
  Scopes : List String := []
  Endpoint : OAuth2Endpoint := {}
deriving DecidableEq, Repr

def authFuncModel {LM : Type} (c : Config) (fallbackEndpoint : OAuth2Endpoint)
    (fallbackLoginMethod : LM)
    (discovery : Except String (OAuth2Endpoint × LM)) : OAuth2Config × LM :=
  let baseOAuth2Config : OAuth2Config :=
    { ClientID := c.ClientID, ClientSecret := c.ClientSecret,
      RedirectURL := c.RedirectURL, Scopes := c.Scope,
      Endpoint := fallbackEndpoint }
  match discovery with
  | .error _ => (baseOAuth2Config, fallbackLoginMethod)
  | .ok (currentEndpoint, currentLoginMethod) =>
    ({ baseOAuth2Config with Endpoint := currentEndpoint }, currentLoginMethod)

/-! Theorems. -/

lemma string_ne_empty_of_length_ne_zero {s : String} (h : ¬ s.length = 0) : s ≠ "" := by
  intro he
  subst he
  exact h rfl

lemma string_length_ne_zero_of_ne_empty {s : String} (h : s ≠ "") : ¬ s.length = 0 := by
  intro hl
  apply h
  cases s with
  | mk d =>
    have : d = [] := List.length_eq_zero.mp hl
    simp [this]

/-- `VerifySourceOrigin` returns nil exactly when a source header is
present, parses, and matches the configured referer on hostname, port,
scheme, and path inclusion. -/
lemma verifySourceOrigin_none_iff (a : Authenticator) (r : OriginRequest) :
    VerifySourceOrigin a r = none ↔
      (getSourceOrigin r ≠ "" ∧ ∃ u, parseURL (getSourceOrigin r) = .ok u ∧
        a.refererURL.Hostname = u.Hostname ∧ a.refererURL.Port = u.Port ∧
        a.refererURL.Scheme = u.Scheme ∧
        (u.Path = "" ∨ goStartsWith u.Path a.refererURL.Path = true)) := by
  unfold VerifySourceOrigin
  by_cases hs : (getSourceOrigin r).length = 0
  · rw [if_pos hs]
    have : getSourceOrigin r = "" := by
      by_contra hne
      exact string_length_ne_zero_of_ne_empty hne hs
    simp [this]
  · rw [if_neg hs]
    have hs' := string_ne_empty_of_length_ne_zero hs
    cases hp : parseURL (getSourceOrigin r) with
    | error e => simp [hs', hp]
    | ok u =>
      cases hbv : (a.refererURL.Hostname == u.Hostname &&
          (a.refererURL.Port == u.Port) &&
          (a.refererURL.Scheme == u.Scheme) &&
          (u.Path == "" || goStartsWith u.Path a.refererURL.Path)) with
      | true =>
        simp only [Bool.and_eq_true, Bool.or_eq_true, beq_iff_eq] at hbv
        simp [hbv, hs']
      | false =>
        dsimp only
        rw [hbv]
        constructor
        · intro h
          exact absurd h (by simp)
        · rintro ⟨-, u', hu', h1, h2, h3, h4⟩
          injection hu' with hu
          subst hu
          have htrue : (a.refererURL.Hostname == u.Hostname &&
              (a.refererURL.Port == u.Port) &&
              (a.refererURL.Scheme == u.Scheme) &&
              (u.Path == "" || goStartsWith u.Path a.refererURL.Path)) = true := by
            simp only [Bool.and_eq_true, Bool.or_eq_true, beq_iff_eq]
            exact ⟨⟨⟨h1, h2⟩, h3⟩, h4⟩
          rw [hbv] at htrue
          cases htrue

/-- An authenticator configured with referer `https://console.example`,
as in the spec's origin-verification example. -/
def consoleAuthExample : Authenticator :=
  { refererURL := { Scheme := "https", Host := "console.example", Path := "" } }

/-- C1 counterexample: with configured referer
`https://console.example/console/`, a request whose `Referer` header is
`https://console.example/console/settings` is accepted
(`VerifySourceOrigin` returns nil), yet the candidate path
`/console/settings` is not a prefix of the configured referer path
`/console/` — the code requires the opposite inclusion
(`strings.HasPrefix(u.Path, refererURL.Path)`), so the claim's "only if
the candidate path is a prefix of the configured referer path" is
false. -/
theorem C1_counterexample :
    VerifySourceOrigin
      { refererURL := { Scheme := "https", Host := "console.example", Path := "/console/" } }
      { refererHeader := "https://console.example/console/settings" } = none ∧
    goStartsWith "/console/" "/console/settings" = false := by
  decide

/-- C1 (amended): `VerifySourceOrigin` returns nil only if the preferred
header (Origin, else Referer) parses as a URL whose hostname, port and
scheme equal the configured referer URL's and whose path, if present,
has the configured referer path as a prefix (not the other way round);
any mismatch yields an error, as does the absence of both headers; with
configured referer `https://console.example`, Origin
`https://evil.example` yields an error and Origin
`https://console.example` yields nil. -/
theorem C1_verifySourceOrigin (a : Authenticator) (r : OriginRequest) :
    (VerifySourceOrigin a r = none →
      ∃ u, parseURL (getSourceOrigin r) = .ok u ∧
        a.refererURL.Hostname = u.Hostname ∧
        a.refererURL.Port = u.Port ∧
        a.refererURL.Scheme = u.Scheme ∧
        (u.Path = "" ∨ goStartsWith u.Path a.refererURL.Path = true)) ∧
    (∀ u, parseURL (getSourceOrigin r) = .ok u →
      ¬ (a.refererURL.Hostname = u.Hostname ∧
         a.refererURL.Port = u.Port ∧
         a.refererURL.Scheme = u.Scheme ∧
         (u.Path = "" ∨ goStartsWith u.Path a.refererURL.Path = true)) →
      (VerifySourceOrigin a r).isSome = true) ∧
    (r.originHeader = "" → r.refererHeader = "" →
      (VerifySourceOrigin a r).isSome = true) ∧
    (VerifySourceOrigin consoleAuthExample
      { originHeader := "https://evil.example" }).isSome = true ∧
    VerifySourceOrigin consoleAuthExample
      { originHeader := "https://console.example" } = none := by
  refine ⟨?_, ?_, ?_, by decide, by decide⟩
  · intro h
    exact ((verifySourceOrigin_none_iff a r).mp h).2
  · intro u hp hmatch
    cases hres : VerifySourceOrigin a r with
    | some v => rfl
    | none =>
      exfalso
      obtain ⟨-, u', hu', h1, h2, h3, h4⟩ := (verifySourceOrigin_none_iff a r).mp hres
      rw [hp] at hu'
      injection hu' with hu
      subst hu
      exact hmatch ⟨h1, h2, h3, h4⟩
  · intro ho hr
    cases hres : VerifySourceOrigin a r with
    | some v => rfl
    | none =>
      exfalso
      obtain ⟨hne, -⟩ := (verifySourceOrigin_none_iff a r).mp hres
      apply hne
      unfold getSourceOrigin
      simp [ho, hr]

/-- C1 witness: the amended theorem applied at concrete inputs — both
headers absent gives an error, and a matching Origin both returns nil
and satisfies the extracted match conditions. -/
theorem C1_verifySourceOrigin_witness :
    (VerifySourceOrigin consoleAuthExample {}).isSome = true ∧
    (∃ u, parseURL (getSourceOrigin { originHeader := "https://console.example" }) = .ok u ∧
      consoleAuthExample.refererURL.Hostname = u.Hostname ∧
      consoleAuthExample.refererURL.Port = u.Port ∧
      consoleAuthExample.refererURL.Scheme = u.Scheme ∧
      (u.Path = "" ∨ goStartsWith u.Path consoleAuthExample.refererURL.Path = true)) := by
  constructor
  · exact (C1_verifySourceOrigin consoleAuthExample {}).2.2.1 rfl rfl
  · exact (C1_verifySourceOrigin consoleAuthExample
      { originHeader := "https://console.example" }).1 (by decide)



/-- The redirect target the spec promises for an authentication failure:
the configured error URL annotated with an `error` category and
`error_type=auth` query. -/
def errorRedirectLocation (a : Authenticator) (category : String) : String :=
  let base : GoURL :=
    match parseURL a.errorURL with
    | .error _ => { Path := a.errorURL }
    | .ok up => up
  urlToString { base with RawQuery := "error=" ++ category ++ "&error_type=auth" }

lemma redirectAuthError_eq (a : Authenticator) (category : String) :
    redirectAuthError a category = .redirect (errorRedirectLocation a category) 303 := rfl

lemma callbackFunc_no_server_error (a : Authenticator)
    (exchange : String → Except String OAuth2Token)
    (lmLogin : OAuth2Token → Except String (LoginState × Cookie))
    (r : CallbackRequest) (loc : String) (s : Nat) :
    CallbackFunc a exchange lmLogin r = .redirect loc s → s = 303 := by
  intro h
  unfold CallbackFunc at h
  cases hc : cookieGet r.cookies stateCookieName with
  | none =>
    rw [hc] at h
    rw [redirectAuthError_eq] at h
    injection h with h1 h2
    exact h2.symm
  | some v =>
    rw [hc] at h
    dsimp only at h
    by_cases h1 : (queryGet r.query "error" == "" && (queryGet r.query "code" == "")) = true
    · rw [if_pos h1] at h
      injection h with ha hb
      exact hb.symm
    · rw [if_neg h1] at h
      by_cases h2 : (queryGet r.query "code" == "") = true
      · rw [if_pos h2, redirectAuthError_eq] at h
        injection h with ha hb
        exact hb.symm
      · rw [if_neg h2] at h
        by_cases h3 : (queryGet r.query "state" != v) = true
        · rw [if_pos h3, redirectAuthError_eq] at h
          injection h with ha hb
          exact hb.symm
        · rw [if_neg h3] at h
          cases hx : exchange (queryGet r.query "code") with
          | error e =>
            rw [hx, redirectAuthError_eq] at h
            injection h with ha hb
            exact hb.symm
          | ok t =>
            rw [hx] at h
            dsimp only at h
            cases hl : lmLogin t with
            | error e =>
              rw [hl, redirectAuthError_eq] at h
              injection h with ha hb
              exact hb.symm
            | ok lsc =>
              rw [hl] at h
              cases h


/-- C2: every failure of the callback handler is a 303 redirect (never a
500-class response) to the configured error URL annotated with the
failure category and `error_type=auth`: missing state cookie →
`missing_state`; `error` present with empty `code` → `missing_code`;
`state` query differing from the state cookie → `invalid_state` with no
token exchange attempted (the outcome is independent of the exchange
function); failed exchange → `invalid_code`; failed login →
`internal_error`; and a request with neither `error` nor `code` is
redirected to the error URL with no error annotation. -/
theorem C2_callbackFunc (a : Authenticator)
    (exchange exchangeAlt : String → Except String OAuth2Token)
    (lmLogin : OAuth2Token → Except String (LoginState × Cookie))
    (r : CallbackRequest) :
    (cookieGet r.cookies stateCookieName = none →
      CallbackFunc a exchange lmLogin r =
        .redirect (errorRedirectLocation a errorMissingState) 303) ∧
    (∀ v, cookieGet r.cookies stateCookieName = some v →
      queryGet r.query "error" = "" → queryGet r.query "code" = "" →
      CallbackFunc a exchange lmLogin r = .redirect a.errorURL 303) ∧
    (∀ v, cookieGet r.cookies stateCookieName = some v →
      queryGet r.query "error" ≠ "" → queryGet r.query "code" = "" →
      CallbackFunc a exchange lmLogin r =
        .redirect (errorRedirectLocation a errorMissingCode) 303) ∧
    (∀ v, cookieGet r.cookies stateCookieName = some v →
      queryGet r.query "code" ≠ "" → queryGet r.query "state" ≠ v →
      (CallbackFunc a exchange lmLogin r =
        .redirect (errorRedirectLocation a errorInvalidState) 303 ∧
       CallbackFunc a exchangeAlt lmLogin r = CallbackFunc a exchange lmLogin r)) ∧
    (∀ v e, cookieGet r.cookies stateCookieName = some v →
      queryGet r.query "code" ≠ "" → queryGet r.query "state" = v →
      exchange (queryGet r.query "code") = .error e →
      CallbackFunc a exchange lmLogin r =
        .redirect (errorRedirectLocation a errorInvalidCode) 303) ∧
    (∀ v t e, cookieGet r.cookies stateCookieName = some v →
      queryGet r.query "code" ≠ "" → queryGet r.query "state" = v →
      exchange (queryGet r.query "code") = .ok t → lmLogin t = .error e →
      CallbackFunc a exchange lmLogin r =
        .redirect (errorRedirectLocation a errorInternal) 303) ∧
    (∀ loc s, CallbackFunc a exchange lmLogin r = .redirect loc s → s = 303) := by
  refine ⟨?_, ?_, ?_, ?_, ?_, ?_, callbackFunc_no_server_error a exchange lmLogin r⟩
  · intro hc
    unfold CallbackFunc
    rw [hc, redirectAuthError_eq]
  · intro v hc he hcd
    unfold CallbackFunc
    rw [hc]
    dsimp only
    rw [if_pos (by simp [he, hcd])]
  · intro v hc he hcd
    unfold CallbackFunc
    rw [hc]
    dsimp only
    rw [if_neg (by simp [he]), if_pos (by simp [hcd]), redirectAuthError_eq]
  · intro v hc hcd hst
    have hgen : ∀ ex : String → Except String OAuth2Token,
        CallbackFunc a ex lmLogin r =
          .redirect (errorRedirectLocation a errorInvalidState) 303 := by
      intro ex
      unfold CallbackFunc
      rw [hc]
      dsimp only
      rw [if_neg (by simp [hcd]), if_neg (by simp [hcd]),
        if_pos (by simp [bne_iff_ne, hst]), redirectAuthError_eq]
    exact ⟨hgen exchange, (hgen exchangeAlt).trans (hgen exchange).symm⟩
  · intro v e hc hcd hst hx
    unfold CallbackFunc
    rw [hc]
    dsimp only
    rw [if_neg (by simp [hcd]), if_neg (by simp [hcd]),
      if_neg (by simp [bne_iff_ne, hst]), hx, redirectAuthError_eq]
  · intro v t e hc hcd hst hx hl
    unfold CallbackFunc
    rw [hc]
    dsimp only
    rw [if_neg (by simp [hcd]), if_neg (by simp [hcd]),
      if_neg (by simp [bne_iff_ne, hst]), hx]
    dsimp only
    rw [hl, redirectAuthError_eq]

def callbackAuthExample : Authenticator := { errorURL := "/", successURL := "/ok" }

def exchangeFailExample : String → Except String OAuth2Token := fun _ => .error "exchange refused"

def exchangeOkExample : String → Except String OAuth2Token := fun _ => .ok { AccessToken := "tok" }

def lmLoginFailExample : OAuth2Token → Except String (LoginState × Cookie) := fun _ => .error "no login"

/-- C2 witness: the theorem applied at concrete requests — a state
mismatch yields the `invalid_state` redirect (whose location computes to
`/?error=invalid_state&error_type=auth`) independently of the exchange
function, and a missing state cookie yields the `missing_state`
redirect. -/
theorem C2_callbackFunc_witness :
    CallbackFunc callbackAuthExample exchangeFailExample lmLoginFailExample
      { query := [("code", "abc"), ("state", "zzz")], cookies := [("login-state", "yyy")] } =
      .redirect (errorRedirectLocation callbackAuthExample errorInvalidState) 303 ∧
    CallbackFunc callbackAuthExample exchangeOkExample lmLoginFailExample
      { query := [("code", "abc"), ("state", "zzz")], cookies := [("login-state", "yyy")] } =
    CallbackFunc callbackAuthExample exchangeFailExample lmLoginFailExample
      { query := [("code", "abc"), ("state", "zzz")], cookies := [("login-state", "yyy")] } ∧
    errorRedirectLocation callbackAuthExample errorInvalidState =
      "/?error=invalid_state&error_type=auth" ∧
    CallbackFunc callbackAuthExample exchangeFailExample lmLoginFailExample {} =
      .redirect (errorRedirectLocation callbackAuthExample errorMissingState) 303 := by
  have h4 := (C2_callbackFunc callbackAuthExample exchangeFailExample exchangeOkExample
    lmLoginFailExample
    { query := [("code", "abc"), ("state", "zzz")], cookies := [("login-state", "yyy")] }).2.2.2.1
    "yyy" (by decide) (by decide) (by decide)
  refine ⟨h4.1, h4.2, by decide, ?_⟩
  exact (C2_callbackFunc callbackAuthExample exchangeFailExample exchangeOkExample
    lmLoginFailExample {}).1 (by decide)


lemma cacheLoad_cacheStore_self (m : List (String × HTTPClient)) (k : String)
    (v : HTTPClient) : cacheLoad (cacheStore m k v) k = some v := by
  simp [cacheLoad, cacheStore, List.find?]

/-- C3: after a successful client construction, a second call in the
same system-roots mode whose CA file (possibly at a different path)
holds byte-identical content returns the very client instance cached by
the first call — same allocation identity — and leaves the cache state
untouched, so no new client is built; keying is by exact file content. -/
theorem C3_clientCache (fs1 fs2 : String → Option String) (ap1 ap2 : String → Bool)
    (ca1 ca2 : String) (mode : Bool) (st st1 : ClientCacheState) (c : HTTPClient)
    (d : String) (h1 : ca1 ≠ "") (h2 : ca2 ≠ "") (hf1 : fs1 ca1 = some d)
    (hf2 : fs2 ca2 = some d)
    (hcall : newHTTPClient fs1 ap1 ca1 mode st = (.ok c, st1)) :
    newHTTPClient fs2 ap2 ca2 mode st1 = (.ok c, st1) := by
  unfold newHTTPClient at hcall ⊢
  rw [if_neg h1, hf1] at hcall
  rw [if_neg h2, hf2]
  dsimp only at hcall ⊢
  cases mode with
  | true =>
    simp only [if_true] at hcall ⊢
    have hload : cacheLoad st1.cacheSystemRoots d = some c := by
      cases hl : cacheLoad st.cacheSystemRoots d with
      | some c0 =>
        rw [hl] at hcall
        injection hcall with hx hy
        injection hx with hx
        subst hx; subst hy
        exact hl
      | none =>
        rw [hl] at hcall
        cases hap : ap1 d with
        | true =>
          rw [if_pos hap] at hcall
          injection hcall with hx hy
          injection hx with hx
          subst hx
          rw [← hy]
          exact cacheLoad_cacheStore_self _ _ _
        | false =>
          rw [if_neg (by simp [hap])] at hcall
          injection hcall with hx hy
          cases hx
    rw [hload]
  | false =>
    simp only [Bool.false_eq_true, if_false] at hcall ⊢
    have hload : cacheLoad st1.cache d = some c := by
      cases hl : cacheLoad st.cache d with
      | some c0 =>
        rw [hl] at hcall
        injection hcall with hx hy
        injection hx with hx
        subst hx; subst hy
        exact hl
      | none =>
        rw [hl] at hcall
        cases hap : ap1 d with
        | true =>
          rw [if_pos hap] at hcall
          injection hcall with hx hy
          injection hx with hx
          subst hx
          rw [← hy]
          exact cacheLoad_cacheStore_self _ _ _
        | false =>
          rw [if_neg (by simp [hap])] at hcall
          injection hcall with hx hy
          cases hx
    rw [hload]


def caFileSystemExample : String → Option String :=
  fun p => if p == "/etc/a.crt" || p == "/etc/b.crt" then some "CERTPEM" else none

def appendOKExample : String → Bool := fun d => d == "CERTPEM"

def cachedClientExample : HTTPClient :=
  { isDefault := false, includeSystemRoots := false, caKey := "CERTPEM", id := 1 }

def cacheStateExample : ClientCacheState :=
  { cache := [("CERTPEM", cachedClientExample)], cacheSystemRoots := [], nextId := 2 }

/-- C3 witness: the theorem applied with content `CERTPEM` readable at
two distinct paths; the second call returns the client cached by the
first and the state is unchanged. -/
theorem C3_clientCache_witness :
    newHTTPClient caFileSystemExample appendOKExample "/etc/b.crt" false cacheStateExample =
      (.ok cachedClientExample, cacheStateExample) :=
  C3_clientCache caFileSystemExample caFileSystemExample appendOKExample appendOKExample
    "/etc/a.crt" "/etc/b.crt" false { cache := [], cacheSystemRoots := [], nextId := 1 }
    cacheStateExample cachedClientExample "CERTPEM"
    (by decide) (by decide) (by decide) (by decide) (by decide)

/-- C10: a failing `newHTTPClient` call leaves the whole cache state —
both maps — exactly as it was, so failures are never cached; and any
call whose (non-empty) CA file is readable with PEM content the
certificate pool accepts succeeds, so a later call after the file
content is corrected rebuilds and returns a valid client. -/
theorem C10_failureNotCached (fs : String → Option String) (ap : String → Bool)
    (ca : String) (mode : Bool) (st : ClientCacheState) :
    (∀ e, (newHTTPClient fs ap ca mode st).1 = .error e →
      (newHTTPClient fs ap ca mode st).2 = st) ∧
    (∀ d, ca ≠ "" → fs ca = some d → ap d = true →
      ∃ cl, (newHTTPClient fs ap ca mode st).1 = .ok cl) := by
  constructor
  · intro e
    unfold newHTTPClient
    by_cases hca : ca = ""
    · rw [if_pos hca]
      intro he
      simp at he
    · rw [if_neg hca]
      cases hf : fs ca with
      | none => intro he; rfl
      | some d =>
        dsimp only
        cases mode with
        | true =>
          simp only [if_true]
          cases hl : cacheLoad st.cacheSystemRoots d with
          | some c0 => intro he; simp at he
          | none =>
            cases hap : ap d with
            | true => intro he; simp at he
            | false => intro he; simp
        | false =>
          simp only [Bool.false_eq_true, if_false]
          cases hl : cacheLoad st.cache d with
          | some c0 => intro he; simp at he
          | none =>
            cases hap : ap d with
            | true => intro he; simp at he
            | false => intro he; simp
  · intro d hca hfd hap
    unfold newHTTPClient
    rw [if_neg hca, hfd]
    dsimp only
    cases mode with
    | true =>
      simp only [if_true]
      cases hl : cacheLoad st.cacheSystemRoots d with
      | some c0 => exact ⟨c0, rfl⟩
      | none =>
        rw [if_pos hap]
        exact ⟨_, rfl⟩
    | false =>
      simp only [Bool.false_eq_true, if_false]
      cases hl : cacheLoad st.cache d with
      | some c0 => exact ⟨c0, rfl⟩
      | none =>
        rw [if_pos hap]
        exact ⟨_, rfl⟩

def badCAFileSystemExample : String → Option String :=
  fun p => if p == "/bad.crt" then some "GARBAGE" else none

def correctedCAFileSystemExample : String → Option String :=
  fun p => if p == "/bad.crt" then some "CERTPEM" else none

/-- C10 witness: the theorem applied at `/bad.crt` holding garbage (the
call fails and the cache state is unchanged) and then at the same path
holding valid PEM content (the call succeeds). -/
theorem C10_failureNotCached_witness :
    (newHTTPClient badCAFileSystemExample appendOKExample "/bad.crt" false
      { cache := [], cacheSystemRoots := [], nextId := 1 }).2 =
      { cache := [], cacheSystemRoots := [], nextId := 1 } ∧
    ∃ cl, (newHTTPClient correctedCAFileSystemExample appendOKExample "/bad.crt" false
      { cache := [], cacheSystemRoots := [], nextId := 1 }).1 = .ok cl := by
  constructor
  · exact (C10_failureNotCached badCAFileSystemExample appendOKExample "/bad.crt" false
      { cache := [], cacheSystemRoots := [], nextId := 1 }).1
      "file /bad.crt contained no CA data" (by decide)
  · exact (C10_failureNotCached correctedCAFileSystemExample appendOKExample "/bad.crt" false
      { cache := [], cacheSystemRoots := [], nextId := 1 }).2
      "CERTPEM" (by decide) (by decide) (by decide)


/-- C4: the OpenShift `login` rejects an empty access token (and then
writes no cookie, structurally); otherwise it returns the session
cookie — HTTP-only, SameSite=Lax, scoped to the cookie path, secure per
the flag, with `Domain` set when a cookie domain is configured, and
max-age the token's time to expiry when set and 24 hours (86400s)
otherwise — together with a `LoginState` whose raw token is the access
token and which carries no name or email claim. -/
theorem C4_openshiftLogin (o : OpenShiftAuth) (now : Int) (token : OAuth2Token) :
    (token.AccessToken = "" →
      OpenShiftAuth.login o now token =
        .error "token response did not contain an access token") ∧
    (token.AccessToken ≠ "" →
      ∃ ls c, OpenShiftAuth.login o now token = .ok (ls, c) ∧
        ls.rawToken = token.AccessToken ∧ ls.name = "" ∧ ls.email = "" ∧
        c.Name = GetCookieName o.clusterName ∧ c.Value = token.AccessToken ∧
        c.HttpOnly = true ∧ c.SameSite = .laxMode ∧ c.Path = o.cookiePath ∧
        c.Secure = o.secureCookies ∧
        (o.cookieDomain ≠ "" → c.Domain = o.cookieDomain) ∧
        c.MaxAge = (match token.Expiry with
          | none => (86400 : Int)
          | some e => e - now)) := by
  constructor
  · intro h
    unfold OpenShiftAuth.login
    rw [if_pos h]
  · intro h
    unfold OpenShiftAuth.login
    rw [if_neg h]
    refine ⟨_, _, rfl, rfl, rfl, rfl, rfl, rfl, rfl, rfl, rfl, rfl, ?_, rfl⟩
    intro hd
    simp [hd]

lemma find_mapReplace (tl : List (String × String)) (name val : String)
    (hany : (tl.any fun p => p.1 == name) = true) :
    (List.find? (fun p => p.1 == name)
      (tl.map fun p => if p.1 == name then (p.1, val) else p)).map (·.2) = some val := by
  induction tl with
  | nil => simp at hany
  | cons hd tl ih =>
    by_cases hh : (hd.1 == name) = true
    · simp [List.find?, hh]
    · rw [List.any_cons] at hany
      have hh2 : (hd.1 == name) = false := by
        cases hb : (hd.1 == name) with
        | true => exact absurd hb hh
        | false => rfl
      rw [hh2, Bool.false_or] at hany
      simpa [List.find?, hh] using ih hany

lemma find_appendNew (jar : List (String × String)) (name val : String)
    (hnone : (jar.any fun p => p.1 == name) = false) :
    (List.find? (fun p => p.1 == name) (jar ++ [(name, val)])).map (·.2) = some val := by
  induction jar with
  | nil => simp [List.find?]
  | cons hd tl ih =>
    rw [List.any_cons] at hnone
    obtain ⟨hh, h2⟩ := Bool.or_eq_false_iff.mp hnone
    simpa [List.find?, hh] using ih h2

/-- Applying a `Set-Cookie` with non-negative `Max-Age` makes the
cookie's value the one the jar serves for that name. -/
lemma cookieGet_applySetCookie (jar : List (String × String)) (c : Cookie)
    (h : ¬ c.MaxAge < 0) : cookieGet (applySetCookie jar c) c.Name = some c.Value := by
  unfold applySetCookie cookieGet
  rw [if_neg h]
  by_cases hany : (jar.any fun p => p.1 == c.Name) = true
  · rw [if_pos hany]
    exact find_mapReplace jar c.Name c.Value hany
  · rw [if_neg hany]
    have hnone : (jar.any fun p => p.1 == c.Name) = false := by
      cases hb : (jar.any fun p => p.1 == c.Name) with
      | true => exact absurd hb hany
      | false => rfl
    exact find_appendNew jar c.Name c.Value hnone

/-- C5: `logout` responds 204 and overwrites the session cookie with an
empty value and zero max-age, keeping the name, path, domain and secure
attributes of any cookie `login` would set; consequently, applying the
logout cookie to any jar and calling `getOpenShiftUser` (the
`Authenticate` path) for the same cluster fails with the no-session
error. -/
theorem C5_openshiftLogout (o : OpenShiftAuth) :
    (OpenShiftAuth.logout o).2 = 204 ∧
    ((OpenShiftAuth.logout o).1.Name = GetCookieName o.clusterName ∧
     (OpenShiftAuth.logout o).1.Value = "" ∧
     (OpenShiftAuth.logout o).1.MaxAge = 0 ∧
     (OpenShiftAuth.logout o).1.HttpOnly = true ∧
     (OpenShiftAuth.logout o).1.Path = o.cookiePath ∧
     (OpenShiftAuth.logout o).1.Secure = o.secureCookies ∧
     (OpenShiftAuth.logout o).1.Domain =
       (if o.cookieDomain ≠ "" then o.cookieDomain else "")) ∧
    (∀ now token ls lc, OpenShiftAuth.login o now token = .ok (ls, lc) →
      lc.Name = (OpenShiftAuth.logout o).1.Name ∧
      lc.Path = (OpenShiftAuth.logout o).1.Path ∧
      lc.Domain = (OpenShiftAuth.logout o).1.Domain ∧
      lc.Secure = (OpenShiftAuth.logout o).1.Secure) ∧
    (∀ jar, getOpenShiftUser
        { cluster := o.clusterName,
          cookies := applySetCookie jar (OpenShiftAuth.logout o).1 } =
      .error ("unauthenticated, no value for cookie " ++ GetCookieName o.clusterName)) := by
  refine ⟨rfl, ⟨rfl, rfl, rfl, rfl, rfl, rfl, rfl⟩, ?_, ?_⟩
  · intro now token ls lc hlogin
    unfold OpenShiftAuth.login at hlogin
    by_cases h : token.AccessToken = ""
    · rw [if_pos h] at hlogin
      cases hlogin
    · rw [if_neg h] at hlogin
      dsimp only at hlogin
      injection hlogin with hx
      injection hx with h1 h2
      subst h2
      exact ⟨rfl, rfl, rfl, rfl⟩
  · intro jar
    have hget : cookieGet (applySetCookie jar (OpenShiftAuth.logout o).1)
        (OpenShiftAuth.logout o).1.Name = some (OpenShiftAuth.logout o).1.Value :=
      cookieGet_applySetCookie jar (OpenShiftAuth.logout o).1 (by simp [OpenShiftAuth.logout])
    unfold getOpenShiftUser
    dsimp only
    rw [show GetCookieName o.clusterName = (OpenShiftAuth.logout o).1.Name from rfl, hget]
    rfl


def openshiftAuthExample : OpenShiftAuth :=
  { cookiePath := "/api/", secureCookies := true, clusterName := "c1",
    cookieDomain := ".example.com" }

/-- C4 witness: the theorem applied to a token with expiry 600 seconds
away (max-age 600) and to an empty access token. -/
theorem C4_openshiftLogin_witness :
    (∃ ls c, OpenShiftAuth.login openshiftAuthExample 400
        { AccessToken := "tok", Expiry := some 1000 } = .ok (ls, c) ∧
      ls.rawToken = "tok" ∧ ls.name = "" ∧ ls.email = "" ∧
      c.Name = GetCookieName "c1" ∧ c.Value = "tok" ∧
      c.HttpOnly = true ∧ c.SameSite = .laxMode ∧ c.Path = "/api/" ∧
      c.Secure = true ∧ ((".example.com" : String) ≠ "" → c.Domain = ".example.com") ∧
      c.MaxAge = 600) ∧
    OpenShiftAuth.login openshiftAuthExample 0 { AccessToken := "" } =
      .error "token response did not contain an access token" := by
  constructor
  · have h := (C4_openshiftLogin openshiftAuthExample 400
      { AccessToken := "tok", Expiry := some 1000 }).2 (by decide)
    simp only [openshiftAuthExample] at h
    simpa using h
  · exact (C4_openshiftLogin openshiftAuthExample 0 { AccessToken := "" }).1 rfl

def loginStateExample : LoginState := { rawToken := "tok" }

def loginCookieExample : Cookie :=
  { Name := "openshift-session-token-c1", Value := "tok", MaxAge := 600,
    HttpOnly := true, Path := "/api/", Secure := true, SameSite := .laxMode,
    Domain := ".example.com" }

/-- C5 witness: the theorem applied to the example authenticator — the
attribute equalities against a concrete successful login cookie, and the
post-logout authentication failure on a jar that held a session. -/
theorem C5_openshiftLogout_witness :
    (OpenShiftAuth.logout openshiftAuthExample).2 = 204 ∧
    (loginCookieExample.Name = (OpenShiftAuth.logout openshiftAuthExample).1.Name ∧
     loginCookieExample.Path = (OpenShiftAuth.logout openshiftAuthExample).1.Path ∧
     loginCookieExample.Domain = (OpenShiftAuth.logout openshiftAuthExample).1.Domain ∧
     loginCookieExample.Secure = (OpenShiftAuth.logout openshiftAuthExample).1.Secure) ∧
    getOpenShiftUser
        { cluster := "c1",
          cookies := applySetCookie [("openshift-session-token-c1", "tok")]
            (OpenShiftAuth.logout openshiftAuthExample).1 } =
      .error ("unauthenticated, no value for cookie " ++ GetCookieName "c1") :=
  ⟨(C5_openshiftLogout openshiftAuthExample).1,
   (C5_openshiftLogout openshiftAuthExample).2.2.1 400
     { AccessToken := "tok", Expiry := some 1000 } loginStateExample
     loginCookieExample (by decide),
   (C5_openshiftLogout openshiftAuthExample).2.2.2
     [("openshift-session-token-c1", "tok")]⟩


lemma validateAbsURL_ok (v : String) (h : validateAbsURL v = .ok ()) :
    ∃ u, parseURL v = .ok u ∧ u.Scheme ≠ "" ∧ u.Host ≠ "" := by
  unfold validateAbsURL at h
  cases hp : parseURL v with
  | error e => rw [hp] at h; cases h
  | ok u =>
    rw [hp] at h
    dsimp only at h
    by_cases hc : (urlToString u == "" || (u.Scheme == "") || (u.Host == "")) = true
    · rw [if_pos hc] at h; cases h
    · refine ⟨u, rfl, ?_, ?_⟩
      · intro hs; exact hc (by simp [hs])
      · intro hs; exact hc (by simp [hs])

def discoveryResponseExample : WellKnownResponse :=
  { statusCode := 200,
    body := .ok { issuer := "https://oauth.example",
                  auth := "https://oauth.example/authorize",
                  token := "https://oauth.example/token" } }

/-- C6: `newOpenShiftAuth` succeeds only when the well-known response is
2xx and each decoded URL (issuer, authorization endpoint, token
endpoint) parses as an absolute URL with non-empty scheme and host; on
success the special URLs join `/request` onto the token endpoint and
`/logout` onto the issuer, and on the spec's example discovery document
the result is `RequestToken = https://oauth.example/token/request`,
`KubeAdminLogout = https://oauth.example/logout`. -/
theorem C6_openshiftDiscovery :
    (∀ (c : OpenShiftConfig) (resp : WellKnownResponse) (reach : Bool)
      (ep : OAuth2Endpoint) (os : OpenShiftAuth),
      newOpenShiftAuth c resp reach = .ok (ep, os) →
      resp.statusCode / 100 = 2 ∧
      ∃ md, resp.body = .ok md ∧
        (∃ u, parseURL md.issuer = .ok u ∧ u.Scheme ≠ "" ∧ u.Host ≠ "") ∧
        (∃ u, parseURL md.auth = .ok u ∧ u.Scheme ≠ "" ∧ u.Host ≠ "") ∧
        (∃ u, parseURL md.token = .ok u ∧ u.Scheme ≠ "" ∧ u.Host ≠ "") ∧
        ep = { AuthURL := md.auth, TokenURL := md.token } ∧
        os.specialURLs = { RequestToken := SingleJoiningSlash md.token "/request",
                           KubeAdminLogout := SingleJoiningSlash md.issuer "/logout" }) ∧
    (newOpenShiftAuth {} discoveryResponseExample true).map
      (fun p => p.2.specialURLs) =
      .ok { RequestToken := "https://oauth.example/token/request",
            KubeAdminLogout := "https://oauth.example/logout" } := by
  constructor
  · intro c resp reach ep os h
    unfold newOpenShiftAuth at h
    by_cases hst : resp.statusCode / 100 = 2
    · rw [if_neg (by simp [hst])] at h
      cases hbody : resp.body with
      | error e => rw [hbody] at h; cases h
      | ok md =>
        rw [hbody] at h
        dsimp only at h
        cases hv1 : validateAbsURL md.issuer with
        | error e => rw [hv1] at h; cases h
        | ok u1 =>
          cases u1
          rw [hv1] at h
          dsimp only at h
          cases hv2 : validateAbsURL md.auth with
          | error e => rw [hv2] at h; cases h
          | ok u2 =>
            cases u2
            rw [hv2] at h
            dsimp only at h
            cases hv3 : validateAbsURL md.token with
            | error e => rw [hv3] at h; cases h
            | ok u3 =>
              cases u3
              rw [hv3] at h
              dsimp only at h
              cases reach with
              | false => simp at h
              | true =>
                simp only [Bool.not_true, Bool.false_eq_true, if_false] at h
                injection h with hx
                injection hx with hep hos
                refine ⟨hst, md, rfl, validateAbsURL_ok _ hv1,
                  validateAbsURL_ok _ hv2, validateAbsURL_ok _ hv3,
                  hep.symm, ?_⟩
                rw [← hos]
    · rw [if_pos hst] at h
      cases h
  · decide

/-- C6 witness: the theorem's success direction applied to the concrete
example discovery document. -/
theorem C6_openshiftDiscovery_witness :
    discoveryResponseExample.statusCode / 100 = 2 ∧
    ∃ md, discoveryResponseExample.body = .ok md ∧
      (∃ u, parseURL md.issuer = .ok u ∧ u.Scheme ≠ "" ∧ u.Host ≠ "") ∧
      (∃ u, parseURL md.auth = .ok u ∧ u.Scheme ≠ "" ∧ u.Host ≠ "") ∧
      (∃ u, parseURL md.token = .ok u ∧ u.Scheme ≠ "" ∧ u.Host ≠ "") ∧
      ({ AuthURL := "https://oauth.example/authorize",
         TokenURL := "https://oauth.example/token" } : OAuth2Endpoint) =
        { AuthURL := md.auth, TokenURL := md.token } ∧
      ({ RequestToken := "https://oauth.example/token/request",
         KubeAdminLogout := "https://oauth.example/logout" } : SpecialAuthURLs) =
        { RequestToken := SingleJoiningSlash md.token "/request",
          KubeAdminLogout := SingleJoiningSlash md.issuer "/logout" } :=
  (C6_openshiftDiscovery).1 {} discoveryResponseExample true
    { AuthURL := "https://oauth.example/authorize",
      TokenURL := "https://oauth.example/token" }
    { cookiePath := "", secureCookies := false,
      specialURLs := { RequestToken := "https://oauth.example/token/request",
                       KubeAdminLogout := "https://oauth.example/logout" },
      clusterName := "", cookieDomain := "" }
    (by decide)


lemma authRetryGo_all_fail {α : Type} (attempts : Nat → Except String α)
    (e : Nat → String) (h : ∀ i, attempts i = .error (e i)) :
    ∀ fuel i, authRetryGo attempts i fuel = .err (i + fuel) (e (i + fuel)) := by
  intro fuel
  induction fuel with
  | zero =>
    intro i
    unfold authRetryGo
    rw [h i]
    simp
  | succ n ih =>
    intro i
    unfold authRetryGo
    rw [h i]
    dsimp only
    rw [ih (i + 1)]
    congr 1
    · omega
    · congr 1
      omega

lemma authRetryGo_first_ok {α : Type} (attempts : Nat → Except String α) :
    ∀ (k fuel i : Nat) (v : α), k ≤ fuel →
    (∀ j, j < k → ∃ ej, attempts (i + j) = .error ej) →
    attempts (i + k) = .ok v → authRetryGo attempts i fuel = .ok (i + k) v := by
  intro k
  induction k with
  | zero =>
    intro fuel i v hk hfail hok
    unfold authRetryGo
    rw [Nat.add_zero] at hok
    rw [hok]
    simp
  | succ n ih =>
    intro fuel i v hk hfail hok
    obtain ⟨e0, he0⟩ := hfail 0 (Nat.succ_pos n)
    rw [Nat.add_zero] at he0
    unfold authRetryGo
    rw [he0]
    dsimp only
    cases fuel with
    | zero => omega
    | succ m =>
      dsimp only
      have hres := ih m (i + 1) v (by omega)
        (fun j hj => by
          obtain ⟨ej, hej⟩ := hfail (j + 1) (by omega)
          exact ⟨ej, by rw [show i + 1 + j = i + (j + 1) from by omega]; exact hej⟩)
        (by rw [show i + 1 + n = i + (n + 1) from by omega]; exact hok)
      rw [hres]
      congr 1
      omega

lemma authRetryGo_congr {α : Type} (attempts attemptsAlt : Nat → Except String α) :
    ∀ fuel i, (∀ j, j ≤ i + fuel → attemptsAlt j = attempts j) →
    authRetryGo attemptsAlt i fuel = authRetryGo attempts i fuel := by
  intro fuel
  induction fuel with
  | zero =>
    intro i h
    unfold authRetryGo
    rw [h i (by omega)]
  | succ n ih =>
    intro i h
    unfold authRetryGo
    rw [h i (by omega)]
    cases hi : attempts i with
    | ok v => rfl
    | error e =>
      dsimp only
      exact ih (i + 1) fun j hj => h j (by omega)

/-- C7: the discovery loop of `NewAuthenticator` retries with a fixed
10-second backoff and a bound of 30 retries after the initial attempt
(30 sleeps x 10s = 300s, about 5 minutes): when every attempt fails it
stops at attempt index 30 — the 31st and last call — returning that
attempt's error; it returns successfully at the first succeeding
attempt within the bound; and the outcome never depends on attempts
beyond the bound. -/
theorem C7_newAuthenticatorRetry {α : Type} (attempts : Nat → Except String α) :
    (∀ e : Nat → String, (∀ i, attempts i = .error (e i)) →
      newAuthenticatorRetry attempts = .err 30 (e 30)) ∧
    (∀ k v, k ≤ 30 → (∀ j, j < k → ∃ ej, attempts j = .error ej) →
      attempts k = .ok v → newAuthenticatorRetry attempts = .ok k v) ∧
    (∀ attemptsAlt : Nat → Except String α,
      (∀ j, j ≤ 30 → attemptsAlt j = attempts j) →
      newAuthenticatorRetry attemptsAlt = newAuthenticatorRetry attempts) ∧
    retryBackoffSeconds * 30 = 300 := by
  refine ⟨?_, ?_, ?_, rfl⟩
  · intro e h
    have := authRetryGo_all_fail attempts e h 30 0
    simpa using this
  · intro k v hk hfail hok
    have := authRetryGo_first_ok attempts k 30 0 v hk
      (fun j hj => by simpa using hfail j hj) (by simpa using hok)
    simpa using this
  · intro attemptsAlt h
    exact authRetryGo_congr attempts attemptsAlt 30 0 fun j hj => h j (by omega)

/-- C7 witness: the theorem applied to an always-failing attempt
sequence (gives up at attempt 30 with the last error) and to an
immediately succeeding one (returns at attempt 0). -/
theorem C7_newAuthenticatorRetry_witness :
    newAuthenticatorRetry (fun _ => (.error "provider unreachable" : Except String Nat)) =
      .err 30 "provider unreachable" ∧
    newAuthenticatorRetry (fun _ => (.ok 42 : Except String Nat)) = .ok 0 42 :=
  ⟨(C7_newAuthenticatorRetry fun _ => (.error "provider unreachable" : Except String Nat)).1
      (fun _ => "provider unreachable") (fun _ => rfl),
   (C7_newAuthenticatorRetry fun _ => (.ok 42 : Except String Nat)).2.1 0 42
      (by omega) (fun j hj => absurd hj (Nat.not_lt_zero j)) rfl⟩


/-- C8 counterexample: `newUnstartedAuthenticator` receives the Config
by pointer and assigns `c.CookiePath = "/"` when the field is empty, so
after a successful construction from a Config with empty `CookiePath`
the caller's struct has changed — refuting "every field of the Config is
unchanged after construction returns". -/
theorem C8_counterexample :
    ((newUnstartedAuthenticator (fun _ => none) (fun _ => false)
        { cache := [], cacheSystemRoots := [], nextId := 0 }
        { CookiePath := "" }).2.1).CookiePath ≠
      ({ CookiePath := "" } : Config).CookiePath := by
  decide

/-- C8 (amended): construction leaves every Config field unchanged
except `CookiePath`: when the initial HTTP client fails the Config is
untouched, when `CookiePath` is non-empty the Config is untouched, and
when `CookiePath` is empty and the client succeeds it is set to `/`. -/
theorem C8_configMutation (fs : String → Option String) (ap : String → Bool)
    (st : ClientCacheState) (c : Config) :
    ((newUnstartedAuthenticator fs ap st c).2.1.AuthSource = c.AuthSource ∧
     (newUnstartedAuthenticator fs ap st c).2.1.IssuerURL = c.IssuerURL ∧
     (newUnstartedAuthenticator fs ap st c).2.1.IssuerCA = c.IssuerCA ∧
     (newUnstartedAuthenticator fs ap st c).2.1.RedirectURL = c.RedirectURL ∧
     (newUnstartedAuthenticator fs ap st c).2.1.ClientID = c.ClientID ∧
     (newUnstartedAuthenticator fs ap st c).2.1.ClientSecret = c.ClientSecret ∧
     (newUnstartedAuthenticator fs ap st c).2.1.Scope = c.Scope ∧
     (newUnstartedAuthenticator fs ap st c).2.1.K8sCA = c.K8sCA ∧
     (newUnstartedAuthenticator fs ap st c).2.1.SuccessURL = c.SuccessURL ∧
     (newUnstartedAuthenticator fs ap st c).2.1.ErrorURL = c.ErrorURL ∧
     (newUnstartedAuthenticator fs ap st c).2.1.RefererPath = c.RefererPath ∧
     (newUnstartedAuthenticator fs ap st c).2.1.SecureCookies = c.SecureCookies ∧
     (newUnstartedAuthenticator fs ap st c).2.1.ClusterName = c.ClusterName ∧
     (newUnstartedAuthenticator fs ap st c).2.1.CookieDomain = c.CookieDomain) ∧
    (c.CookiePath ≠ "" → (newUnstartedAuthenticator fs ap st c).2.1 = c) ∧
    (∀ e st2, newHTTPClient fs ap c.IssuerCA true st = (.error e, st2) →
      (newUnstartedAuthenticator fs ap st c).2.1 = c) ∧
    (∀ cl st2, c.CookiePath = "" →
      newHTTPClient fs ap c.IssuerCA true st = (.ok cl, st2) →
      (newUnstartedAuthenticator fs ap st c).2.1 = { c with CookiePath := "/" }) := by
  rcases hn : newHTTPClient fs ap c.IssuerCA true st with ⟨res, st2⟩
  cases res with
  | error e =>
    have hout : (newUnstartedAuthenticator fs ap st c).2.1 = c := by
      unfold newUnstartedAuthenticator
      rw [hn]
    refine ⟨?_, fun _ => hout, fun _ _ _ => hout, fun cl st2 hcp hok => ?_⟩
    · rw [hout]
      exact ⟨rfl, rfl, rfl, rfl, rfl, rfl, rfl, rfl, rfl, rfl, rfl, rfl, rfl, rfl⟩
    · injection hok with h1 h2
      cases h1
  | ok cl0 =>
    have hout : (newUnstartedAuthenticator fs ap st c).2.1 =
        (if c.CookiePath = "" then { c with CookiePath := "/" } else c) := by
      unfold newUnstartedAuthenticator
      rw [hn]
      dsimp only
      cases hp : parseURL
          ((if c.CookiePath = "" then { c with CookiePath := "/" } else c).RefererPath) with
      | error e => rfl
      | ok ref => rfl
    refine ⟨?_, fun hcp => ?_, fun e st2 hbad => ?_, fun cl st2 hcp hok => ?_⟩
    · rw [hout]
      by_cases hcp : c.CookiePath = "" <;> simp [hcp]
    · rw [hout, if_neg hcp]
    · injection hbad with h1 h2
      cases h1
    · rw [hout, if_pos hcp]

/-- C8 witness: the amended theorem applied to a Config with non-empty
`CookiePath` (unchanged) and to one with empty `CookiePath` (set to
`/`). -/
theorem C8_configMutation_witness :
    (newUnstartedAuthenticator (fun _ => none) (fun _ => false)
      { cache := [], cacheSystemRoots := [], nextId := 0 }
      { CookiePath := "/custom/" }).2.1 = { CookiePath := "/custom/" } ∧
    (newUnstartedAuthenticator (fun _ => none) (fun _ => false)
      { cache := [], cacheSystemRoots := [], nextId := 0 }
      { CookiePath := "" }).2.1 =
      { ({ CookiePath := "" } : Config) with CookiePath := "/" } :=
  ⟨(C8_configMutation (fun _ => none) (fun _ => false)
      { cache := [], cacheSystemRoots := [], nextId := 0 }
      { CookiePath := "/custom/" }).2.1 (by decide),
   (C8_configMutation (fun _ => none) (fun _ => false)
      { cache := [], cacheSystemRoots := [], nextId := 0 }
      { CookiePath := "" }).2.2.2 defaultHTTPClient
      { cache := [], cacheSystemRoots := [], nextId := 0 } rfl (by decide)⟩

/-- C9: each `authFunc` call rebuilds the `oauth2.Config` from the
construction-time Config fields (its client id, secret, redirect URL and
scopes always equal the Config's — a fresh value, never carried over
from a previous call); a successful re-discovery yields the newly
discovered endpoint and login method, and a failed one yields the
fallback endpoint and login method captured at the last successful
discovery instead of propagating the error. -/
theorem C9_authFunc {LM : Type} (c : Config) (fallbackEndpoint : OAuth2Endpoint)
    (fallbackLM : LM) (discovery : Except String (OAuth2Endpoint × LM)) :
    (∀ ep lm, discovery = .ok (ep, lm) →
      authFuncModel c fallbackEndpoint fallbackLM discovery =
        ({ ClientID := c.ClientID, ClientSecret := c.ClientSecret,
           RedirectURL := c.RedirectURL, Scopes := c.Scope, Endpoint := ep }, lm)) ∧
    (∀ e, discovery = .error e →
      authFuncModel c fallbackEndpoint fallbackLM discovery =
        ({ ClientID := c.ClientID, ClientSecret := c.ClientSecret,
           RedirectURL := c.RedirectURL, Scopes := c.Scope,
           Endpoint := fallbackEndpoint }, fallbackLM)) ∧
    ((authFuncModel c fallbackEndpoint fallbackLM discovery).1.ClientID = c.ClientID ∧
     (authFuncModel c fallbackEndpoint fallbackLM discovery).1.ClientSecret = c.ClientSecret ∧
     (authFuncModel c fallbackEndpoint fallbackLM discovery).1.RedirectURL = c.RedirectURL ∧
     (authFuncModel c fallbackEndpoint fallbackLM discovery).1.Scopes = c.Scope) := by
  refine ⟨?_, ?_, ?_⟩
  · intro ep lm h
    rw [h]
    rfl
  · intro e h
    rw [h]
    rfl
  · rcases discovery with e | ⟨ep, lm⟩
    · exact ⟨rfl, rfl, rfl, rfl⟩
    · exact ⟨rfl, rfl, rfl, rfl⟩

def oidcConfigExample : Config :=
  { ClientID := "console", ClientSecret := "s3cr3t",
    RedirectURL := "https://console.example/auth/callback",
    Scope := ["openid", "profile"] }

def fallbackEndpointExample : OAuth2Endpoint :=
  { AuthURL := "https://old.example/authorize", TokenURL := "https://old.example/token" }

def currentEndpointExample : OAuth2Endpoint :=
  { AuthURL := "https://new.example/authorize", TokenURL := "https://new.example/token" }

/-- C9 witness: the theorem applied to a successful re-discovery (new
endpoint carried) and to a failed one (fallback carried). -/
theorem C9_authFunc_witness :
    authFuncModel oidcConfigExample fallbackEndpointExample "fallback-lm"
        (.ok (currentEndpointExample, "current-lm")) =
      ({ ClientID := oidcConfigExample.ClientID,
         ClientSecret := oidcConfigExample.ClientSecret,
         RedirectURL := oidcConfigExample.RedirectURL,
         Scopes := oidcConfigExample.Scope,
         Endpoint := currentEndpointExample }, "current-lm") ∧
    authFuncModel oidcConfigExample fallbackEndpointExample "fallback-lm"
        (.error "discovery blip") =
      ({ ClientID := oidcConfigExample.ClientID,
         ClientSecret := oidcConfigExample.ClientSecret,
         RedirectURL := oidcConfigExample.RedirectURL,
         Scopes := oidcConfigExample.Scope,
         Endpoint := fallbackEndpointExample }, "fallback-lm") :=
  ⟨(C9_authFunc oidcConfigExample fallbackEndpointExample "fallback-lm"
      (.ok (currentEndpointExample, "current-lm"))).1 currentEndpointExample "current-lm" rfl,
   (C9_authFunc oidcConfigExample fallbackEndpointExample "fallback-lm"
      (.error "discovery blip")).2.1 "discovery blip" rfl⟩

end BridgeAuth
